import Mathlib

/-!
# Configuration template `arduino_secrets_template.h`

The header declares one `const int`, two arrays of string literals and a
series of object-like macros.  Each of them is embedded below under its own
name and with its literal value: `const int` and integer macros as `Int`,
`const char* x[]` as an `Array String`, string macros as `String`.  All
string literals of the header are ASCII, so a `Char` of the embedding is one
byte of the C string.
-/

/-! ## Wi-Fi -/

/-- `const int numNetworks = 1;` -/
def numNetworks : Int := 1

/-- `const char* ssids[] = { "YOUR_WIFI_SSID" };` -/
def ssids : Array String := #["YOUR_WIFI_SSID"]

/-- `const char* passwords[] = { "YOUR_WIFI_PASSWORD" };` -/
def passwords : Array String := #["YOUR_WIFI_PASSWORD"]

/-! ## MQTT -/

/-- `#define MQTT_SERVER "YOUR_MQTT_BROKER"` -/
def MQTT_SERVER : String := "YOUR_MQTT_BROKER"

/-- `#define MQTT_PORT 1883` -/
def MQTT_PORT : Int := 1883

/-- `#define MQTT_USER "YOUR_MQTT_USERNAME"` -/
def MQTT_USER : String := "YOUR_MQTT_USERNAME"

/-- `#define MQTT_PASS "YOUR_MQTT_PASSWORD"` -/
def MQTT_PASS : String := "YOUR_MQTT_PASSWORD"

/-- `#define MQTT_CLIENT_ID "MMWAVE01"` -/
def MQTT_CLIENT_ID : String := "MMWAVE01"

/-- `#define MQTT_TOPIC "student/CASA0016/gilangpamungkas"` -/
def MQTT_TOPIC : String := "student/CASA0016/gilangpamungkas"

/-! ## NTP / time -/

/-- `#define NTP_GMT_OFFSET_SEC 0` -/
def NTP_GMT_OFFSET_SEC : Int := 0

/-- `#define NTP_DAYLIGHT_OFFSET_SEC 0` -/
def NTP_DAYLIGHT_OFFSET_SEC : Int := 0

/-! ## TextMeBot (WhatsApp) -/

/-- `#define TEXTMEBOT_BASE_URL "http://api.textmebot.com/send.php?"` -/
def TEXTMEBOT_BASE_URL : String := "http://api.textmebot.com/send.php?"

/-- `#define TEXTMEBOT_RECIPIENT "%2B1234567890"` -/
def TEXTMEBOT_RECIPIENT : String := "%2B1234567890"

/-- `#define TEXTMEBOT_APIKEY "YOUR_TEXTMEBOT_API_KEY"` -/
def TEXTMEBOT_APIKEY : String := "YOUR_TEXTMEBOT_API_KEY"

/-- `#define WHATSAPP_MESSAGE_PREFIX "EMERGENCY%20ALERT%3A%20Fall%20detected%20at%20"` -/
def WHATSAPP_MESSAGE_PREFIX : String := "EMERGENCY%20ALERT%3A%20Fall%20detected%20at%20"

/-- `#define WHATSAPP_MESSAGE_SUFFIX ".%20Immediate%20assistance%20may%20be%20required."` -/
def WHATSAPP_MESSAGE_SUFFIX : String := ".%20Immediate%20assistance%20may%20be%20required."

/-! ## Groupings of the header's values -/

/-- The string macros of the header, in the order of their `#define` lines. -/
def stringMacros : List String :=
  [MQTT_SERVER, MQTT_USER, MQTT_PASS, MQTT_CLIENT_ID, MQTT_TOPIC, TEXTMEBOT_BASE_URL,
   TEXTMEBOT_RECIPIENT, TEXTMEBOT_APIKEY, WHATSAPP_MESSAGE_PREFIX, WHATSAPP_MESSAGE_SUFFIX]

/-- Every string value of the header: the entries of both arrays, then the
string macros. -/
def allStrings : List String :=
  ssids.toList ++ passwords.toList ++ stringMacros

/-! ## Vocabulary of the properties: URL encoding (RFC 3986)

The header only says that the recipient is "URL-encoded" and that URL
encoding is recommended for the message parts; the sketch that would build
the request URL is not part of the header.  The predicates and the two
conversion functions below fix what "URL-encoded" means, following
RFC 3986 section 2: unreserved characters stand for themselves, anything
else is written as `%` and two hexadecimal digits.
-/

/-- An ASCII hexadecimal digit, `0-9`, `a-f` or `A-F`. -/
def isHexDigit (c : Char) : Bool :=
  c.isDigit || (decide ('a' ≤ c) && decide (c ≤ 'f')) || (decide ('A' ≤ c) && decide (c ≤ 'F'))

/-- An unreserved URL character: ASCII letter, digit, `-`, `.`, `_` or `~`. -/
def isUnreserved (c : Char) : Bool :=
  c.isAlpha || c.isDigit || c == '-' || c == '.' || c == '_' || c == '~'

/-- Scanner for URL-encoded text.  The first argument is the number of
hexadecimal digits still owed to an open percent-escape.  With nothing owed,
a `%` opens an escape owing two digits and any other character must be
unreserved; the text must not end inside an escape. -/
def urlEncodedFrom : Nat → List Char → Bool
  | 0, [] => true
  | _ + 1, [] => false
  | 0, c :: cs => if c = '%' then urlEncodedFrom 2 cs else isUnreserved c && urlEncodedFrom 0 cs
  | n + 1, c :: cs => isHexDigit c && urlEncodedFrom n cs

/-- A string is URL-encoded when every `%` in it is followed by two
hexadecimal digits and every character outside such an escape is
unreserved. -/
def isUrlEncoded (s : String) : Bool := urlEncodedFrom 0 s.toList

/-- Value of a hexadecimal digit. -/
def hexVal (c : Char) : Option Nat :=
  if c.isDigit then some (c.toNat - '0'.toNat)
  else if 'a' ≤ c ∧ c ≤ 'f' then some (c.toNat - 'a'.toNat + 10)
  else if 'A' ≤ c ∧ c ≤ 'F' then some (c.toNat - 'A'.toNat + 10)
  else none

/-- The upper-case hexadecimal digit of a value below 16. -/
def hexDigitUpper (n : Nat) : Char :=
  if n < 10 then Char.ofNat ('0'.toNat + n) else Char.ofNat ('A'.toNat + (n - 10))

/-- Percent-decoding of ASCII text: `%XY` becomes the character with code
`16 * X + Y`, every other character is kept; `none` when a `%` is not
followed by two hexadecimal digits. -/
def percentDecodeChars : List Char → Option (List Char)
  | [] => some []
  | c :: cs =>
    if c = '%' then
      match cs with
      | h1 :: h2 :: rest =>
        match hexVal h1, hexVal h2, percentDecodeChars rest with
        | some a, some b, some r => some (Char.ofNat (16 * a + b) :: r)
        | _, _, _ => none
      | _ => none
    else
      match percentDecodeChars cs with
      | some r => some (c :: r)
      | none => none

/-- Percent-decoding of a string. -/
def percentDecode (s : String) : Option String :=
  (percentDecodeChars s.toList).map String.mk

/-- Percent-encoding of one ASCII character: unreserved characters are kept,
any other becomes `%` and its code as two upper-case hexadecimal digits. -/
def percentEncodeChar (c : Char) : List Char :=
  if isUnreserved c then [c]
  else ['%', hexDigitUpper (c.toNat / 16), hexDigitUpper (c.toNat % 16)]

/-- Percent-encoding of ASCII text; `none` when a character is outside
ASCII (its encoding would need the bytes of a character set, which the
header never uses). -/
def percentEncode (s : String) : Option String :=
  if s.toList.all (fun c => decide (c.toNat < 128)) then
    some (String.mk (s.toList.flatMap percentEncodeChar))
  else none

/-! ## Vocabulary of the properties: placeholders -/

/-- An upper-case ASCII letter or an underscore. -/
def isUpperOrUnderscore (c : Char) : Bool := c.isUpper || c == '_'

/-- A value of the header's `YOUR_...` form: it starts with `YOUR_` and
something follows. -/
def isYourPlaceholder (s : String) : Bool :=
  s.toList.take 5 == "YOUR_".toList && decide (5 < s.length)

/-- The fields that carry a secret: network names and passwords, the broker
address and login, and the API key. -/
def secretFields : List String :=
  ssids.toList ++ passwords.toList ++ [MQTT_SERVER, MQTT_USER, MQTT_PASS, TEXTMEBOT_APIKEY]

/-- The remaining string macros: client id, topic, base URL, recipient and
the two message parts. -/
def presetFields : List String :=
  [MQTT_CLIENT_ID, MQTT_TOPIC, TEXTMEBOT_BASE_URL, TEXTMEBOT_RECIPIENT,
   WHATSAPP_MESSAGE_PREFIX, WHATSAPP_MESSAGE_SUFFIX]

/-- A placeholder that cannot be mistaken for a credential: it starts with
`YOUR_` and is made of upper-case ASCII letters and underscores only. -/
def isBarePlaceholder (s : String) : Bool :=
  s.toList.take 5 == "YOUR_".toList && s.toList.all isUpperOrUnderscore

/-- A phone number with country-code mark: a `+` followed by one or more
decimal digits and nothing else. -/
def isPlusDigits (s : String) : Bool :=
  match s.toList with
  | '+' :: d :: ds => (d :: ds).all Char.isDigit
  | _ => false

/-! ## Helper lemmas -/

/-- The scanner accepts a concatenation when it accepts the first part (so
no escape is left open) and accepts the second part from a clean state. -/
theorem urlEncodedFrom_append (n : Nat) (a b : List Char)
    (ha : urlEncodedFrom n a = true) (hb : urlEncodedFrom 0 b = true) :
    urlEncodedFrom n (a ++ b) = true := by
  induction a generalizing n with
  | nil =>
    cases n with
    | zero => simpa using hb
    | succ m => simp [urlEncodedFrom] at ha
  | cons c cs ih =>
    cases n with
    | zero =>
      simp only [List.cons_append, urlEncodedFrom] at ha ⊢
      split at ha
      · rename_i hc
        simp only [hc, if_true]
        exact ih 2 ha
      · rename_i hc
        simp only [hc, if_false]
        simp only [Bool.and_eq_true] at ha ⊢
        exact ⟨ha.1, ih 0 ha.2⟩
    | succ m =>
      simp only [List.cons_append, urlEncodedFrom, Bool.and_eq_true] at ha ⊢
      exact ⟨ha.1, ih m ha.2⟩

/-- URL-encoded strings are closed under concatenation. -/
theorem isUrlEncoded_append (a b : String) (ha : isUrlEncoded a = true)
    (hb : isUrlEncoded b = true) : isUrlEncoded (a ++ b) = true := by
  unfold isUrlEncoded at *
  rw [String.toList, String.data_append]
  exact urlEncodedFrom_append 0 _ _ ha hb

/-- Facts about the 128 ASCII codes, checked one by one: an unreserved
character is never `%`, and both hexadecimal digits written for a code read
back as the half-bytes they stand for and are hexadecimal digits. -/
theorem percentEncodeChar_facts :
    ∀ n, n < 128 →
      (isUnreserved (Char.ofNat n) = true → Char.ofNat n ≠ '%') ∧
      hexVal (hexDigitUpper (n / 16)) = some (n / 16) ∧
      hexVal (hexDigitUpper (n % 16)) = some (n % 16) ∧
      isHexDigit (hexDigitUpper (n / 16)) = true ∧
      isHexDigit (hexDigitUpper (n % 16)) = true := by
  decide

/-- Decoding undoes the encoding of one ASCII character in front of any
text. -/
theorem percentDecodeChars_encodeChar (c : Char) (hc : c.toNat < 128) (rest : List Char) :
    percentDecodeChars (percentEncodeChar c ++ rest) =
      (percentDecodeChars rest).map (fun r => c :: r) := by
  obtain ⟨h1, h2, h3, _, _⟩ := percentEncodeChar_facts c.toNat hc
  rw [Char.ofNat_toNat] at h1
  unfold percentEncodeChar
  by_cases hu : isUnreserved c = true
  · have hne := h1 hu
    rw [if_pos hu, List.singleton_append, percentDecodeChars.eq_def]
    simp only [hne, if_false]
    cases percentDecodeChars rest <;> rfl
  · rw [if_neg hu]
    show percentDecodeChars ('%' :: hexDigitUpper (c.toNat / 16) ::
      hexDigitUpper (c.toNat % 16) :: rest) = _
    have hdm : 16 * (c.toNat / 16) + c.toNat % 16 = c.toNat := Nat.div_add_mod _ _
    rw [percentDecodeChars.eq_def]
    simp only [if_true, h2, h3]
    cases percentDecodeChars rest with
    | none => rfl
    | some r => simp only [hdm, Char.ofNat_toNat, Option.map_some']

/-- Decoding undoes the encoding of ASCII text. -/
theorem percentDecodeChars_encode (s : List Char) (hs : ∀ c ∈ s, c.toNat < 128) :
    percentDecodeChars (s.flatMap percentEncodeChar) = some s := by
  induction s with
  | nil => rfl
  | cons c cs ih =>
    rw [List.flatMap_cons, percentDecodeChars_encodeChar c (hs c (List.mem_cons_self _ _)),
      ih (fun d hd => hs d (List.mem_cons_of_mem _ hd))]
    rfl

/-- Whatever `percentEncode` produces decodes to the text it was given. -/
theorem percentDecode_percentEncode (s e : String) (h : percentEncode s = some e) :
    percentDecode e = some s := by
  unfold percentEncode at h
  split at h
  · rename_i hall
    have he : e = String.mk (s.toList.flatMap percentEncodeChar) := (Option.some.inj h).symm
    have hs : ∀ c ∈ s.toList, c.toNat < 128 := fun c hc => by
      simpa using (List.all_eq_true.mp hall) c hc
    subst he
    unfold percentDecode
    show (percentDecodeChars (s.toList.flatMap percentEncodeChar)).map String.mk = some s
    rw [percentDecodeChars_encode _ hs]
    rfl
  · exact absurd h (by simp)

/-- The encoding of ASCII text passes the URL-encoding scanner. -/
theorem urlEncodedFrom_encode (s : List Char) (hs : ∀ c ∈ s, c.toNat < 128) :
    urlEncodedFrom 0 (s.flatMap percentEncodeChar) = true := by
  induction s with
  | nil => rfl
  | cons c cs ih =>
    have ihc := ih (fun d hd => hs d (List.mem_cons_of_mem _ hd))
    obtain ⟨h1, _, _, h4, h5⟩ := percentEncodeChar_facts c.toNat (hs c (List.mem_cons_self _ _))
    rw [Char.ofNat_toNat] at h1
    rw [List.flatMap_cons]
    refine urlEncodedFrom_append 0 _ _ ?_ ihc
    unfold percentEncodeChar
    by_cases hu : isUnreserved c = true
    · rw [if_pos hu]
      simp [urlEncodedFrom, h1 hu, hu]
    · rw [if_neg hu]
      simp [urlEncodedFrom, h4, h5]

/-- Every string value of the header is ASCII. -/
theorem allStrings_ascii :
    allStrings.all (fun s => s.toList.all (fun c => decide (c.toNat < 128))) = true := by
  decide

/-! ## Counts, port, non-emptiness -/

/-- C1: the `ssids` array, the `passwords` array and the declared count
`numNetworks` all have the same size, which is 1; hence every index `i` with
`0 ≤ i < numNetworks` is in range for both arrays. -/
theorem C1_network_counts_agree (i : Nat) (hi : (i : Int) < numNetworks) :
    (ssids.size : Int) = numNetworks ∧ (passwords.size : Int) = numNetworks ∧
    ssids.size = passwords.size ∧ numNetworks = 1 ∧ 0 < ssids.size ∧
    i < ssids.size ∧ i < passwords.size := by
  have h1 : numNetworks = 1 := rfl
  have hs : ssids.size = 1 := rfl
  have hp : passwords.size = 1 := rfl
  rw [h1] at hi ⊢
  rw [hs, hp]
  refine ⟨rfl, rfl, rfl, rfl, Nat.one_pos, ?_, ?_⟩ <;> omega

/-- Index 0 is below `numNetworks` and in range for both arrays. -/
theorem C1_network_counts_agree_witness :
    ((0 : Nat) : Int) < numNetworks ∧
    ((ssids.size : Int) = numNetworks ∧ (passwords.size : Int) = numNetworks ∧
     ssids.size = passwords.size ∧ numNetworks = 1 ∧ 0 < ssids.size ∧
     0 < ssids.size ∧ 0 < passwords.size) :=
  ⟨by decide, C1_network_counts_agree 0 (by decide)⟩

/-- C2: `MQTT_PORT` lies in the range of valid TCP ports, 1 to 65535. -/
theorem C2_mqtt_port_valid : 1 ≤ MQTT_PORT ∧ MQTT_PORT ≤ 65535 := by
  constructor <;> decide

/-- C3: every string value of the header (each entry of `ssids` and of
`passwords` and each of the ten string macros) has length at least 1. -/
theorem C3_strings_nonempty :
    ssids.toList.all (fun s => decide (1 ≤ s.length)) = true ∧
    passwords.toList.all (fun s => decide (1 ≤ s.length)) = true ∧
    1 ≤ MQTT_SERVER.length ∧ 1 ≤ MQTT_USER.length ∧ 1 ≤ MQTT_PASS.length ∧
    1 ≤ MQTT_CLIENT_ID.length ∧ 1 ≤ MQTT_TOPIC.length ∧ 1 ≤ TEXTMEBOT_BASE_URL.length ∧
    1 ≤ TEXTMEBOT_RECIPIENT.length ∧ 1 ≤ TEXTMEBOT_APIKEY.length ∧
    1 ≤ WHATSAPP_MESSAGE_PREFIX.length ∧ 1 ≤ WHATSAPP_MESSAGE_SUFFIX.length := by
  refine ⟨?_, ?_, ?_, ?_, ?_, ?_, ?_, ?_, ?_, ?_, ?_, ?_⟩
  · decide
  · decide
  all_goals decide

/-! ## URL encoding of the recipient and of the message parts -/

/-- C4: `TEXTMEBOT_RECIPIENT` is URL-encoded: it holds no literal `+`, its
only `%` opens the escape `%2B` of two hexadecimal digits, and the ten
characters outside that escape are unreserved. -/
theorem C4_recipient_url_encoded :
    isUrlEncoded TEXTMEBOT_RECIPIENT = true ∧ '+' ∉ TEXTMEBOT_RECIPIENT.toList ∧
    TEXTMEBOT_RECIPIENT.toList.count '%' = 1 ∧
    TEXTMEBOT_RECIPIENT.toList = '%' :: '2' :: 'B' :: "1234567890".toList ∧
    isHexDigit '2' = true ∧ isHexDigit 'B' = true ∧
    "1234567890".toList.all isUnreserved = true := by
  refine ⟨?_, ?_, ?_, ?_, ?_, ?_, ?_⟩ <;> decide

/-- C6: both message parts are URL-encoded and hold neither a space nor a
`:`; hence the prefix, any URL-encoded timestamp `t` and the suffix, put
together, are URL-encoded again. -/
theorem C6_message_parts_url_encoded (t : String) (ht : isUrlEncoded t = true) :
    isUrlEncoded WHATSAPP_MESSAGE_PREFIX = true ∧ isUrlEncoded WHATSAPP_MESSAGE_SUFFIX = true ∧
    ' ' ∉ WHATSAPP_MESSAGE_PREFIX.toList ∧ ':' ∉ WHATSAPP_MESSAGE_PREFIX.toList ∧
    ' ' ∉ WHATSAPP_MESSAGE_SUFFIX.toList ∧ ':' ∉ WHATSAPP_MESSAGE_SUFFIX.toList ∧
    isUrlEncoded ( WHATSAPP_MESSAGE_PREFIX ++ t ++ WHATSAPP_MESSAGE_SUFFIX) = true := by
  have hp : isUrlEncoded WHATSAPP_MESSAGE_PREFIX = true := by decide
  have hs : isUrlEncoded WHATSAPP_MESSAGE_SUFFIX = true := by decide
  refine ⟨hp, hs, by decide, by decide, by decide, by decide, ?_⟩
  exact isUrlEncoded_append _ _ (isUrlEncoded_append _ _ hp ht) hs

/-- The alert for the URL-encoded timestamp `2025-01-31%2023%3A59%3A07`. -/
theorem C6_message_parts_url_encoded_witness :
    isUrlEncoded "2025-01-31%2023%3A59%3A07" = true ∧
    (isUrlEncoded WHATSAPP_MESSAGE_PREFIX = true ∧ isUrlEncoded WHATSAPP_MESSAGE_SUFFIX = true ∧
     ' ' ∉ WHATSAPP_MESSAGE_PREFIX.toList ∧ ':' ∉ WHATSAPP_MESSAGE_PREFIX.toList ∧
     ' ' ∉ WHATSAPP_MESSAGE_SUFFIX.toList ∧ ':' ∉ WHATSAPP_MESSAGE_SUFFIX.toList ∧
     isUrlEncoded
       ( WHATSAPP_MESSAGE_PREFIX ++ "2025-01-31%2023%3A59%3A07" ++ WHATSAPP_MESSAGE_SUFFIX) = true) :=
  ⟨by decide, C6_message_parts_url_encoded "2025-01-31%2023%3A59%3A07" (by decide)⟩

/-- C7: percent-decoding `TEXTMEBOT_RECIPIENT` gives `+1234567890`, which is
a `+` followed by decimal digits only, and percent-encoding `+1234567890`
gives `TEXTMEBOT_RECIPIENT` back. -/
theorem C7_recipient_decodes_to_phone_number :
    percentDecode TEXTMEBOT_RECIPIENT = some "+1234567890" ∧
    isPlusDigits "+1234567890" = true ∧
    percentEncode "+1234567890" = some TEXTMEBOT_RECIPIENT := by
  refine ⟨?_, ?_, ?_⟩ <;> decide

/-! ## Placeholders -/

/-- C8: every secret-bearing field (each entry of `ssids` and of
`passwords`, `MQTT_SERVER`, `MQTT_USER`, `MQTT_PASS`, `TEXTMEBOT_APIKEY`)
starts with `YOUR_` and is made of upper-case ASCII letters and underscores
only. -/
theorem C8_secret_fields_are_bare_placeholders :
    ssids.toList.all isBarePlaceholder = true ∧
    passwords.toList.all isBarePlaceholder = true ∧
    isBarePlaceholder MQTT_SERVER = true ∧ isBarePlaceholder MQTT_USER = true ∧
    isBarePlaceholder MQTT_PASS = true ∧ isBarePlaceholder TEXTMEBOT_APIKEY = true := by
  refine ⟨?_, ?_, ?_, ?_, ?_, ?_⟩ <;> decide

/-- C5, as stated, fails: `MQTT_CLIENT_ID` is one of the header's string
values and is not of the `YOUR_...` form, nor are `MQTT_TOPIC`,
`TEXTMEBOT_BASE_URL`, `TEXTMEBOT_RECIPIENT` and the two message parts; so
not every string value is a placeholder. -/
theorem C5_not_all_strings_are_placeholders :
    MQTT_CLIENT_ID ∈ allStrings ∧ isYourPlaceholder MQTT_CLIENT_ID = false ∧
    presetFields.all (fun s => decide (s ∈ allStrings) && !isYourPlaceholder s) = true ∧
    allStrings.all isYourPlaceholder = false := by
  refine ⟨?_, ?_, ?_, ?_⟩ <;> decide

/-- C5, amended: among the header's string values, the ones of the
`YOUR_...` form are exactly the secret-bearing fields (entries of `ssids`
and `passwords`, `MQTT_SERVER`, `MQTT_USER`, `MQTT_PASS`,
`TEXTMEBOT_APIKEY`); the ones not of that form are exactly
`MQTT_CLIENT_ID`, `MQTT_TOPIC`, `TEXTMEBOT_BASE_URL`, `TEXTMEBOT_RECIPIENT`
and the two message parts. -/
theorem C5_placeholders_are_exactly_the_secret_fields :
    allStrings.filter isYourPlaceholder = secretFields ∧
    allStrings.filter (fun s => !isYourPlaceholder s) = presetFields := by
  constructor <;> decide

/-! ## The base URL -/

/-- C9: `TEXTMEBOT_BASE_URL` holds exactly one `?`, as its last character,
and no `&` or `#`; so the base URL followed by a query `q` without a `?` of
its own starts with the base URL and still holds exactly one `?`. -/
theorem C9_base_url_ready_for_query (q : String) (hq : '?' ∉ q.toList) :
    TEXTMEBOT_BASE_URL.toList.count '?' = 1 ∧
    TEXTMEBOT_BASE_URL.toList.getLast? = some '?' ∧
    '&' ∉ TEXTMEBOT_BASE_URL.toList ∧ '#' ∉ TEXTMEBOT_BASE_URL.toList ∧
    (TEXTMEBOT_BASE_URL ++ q).toList = TEXTMEBOT_BASE_URL.toList ++ q.toList ∧
    (TEXTMEBOT_BASE_URL ++ q).toList.count '?' = 1 := by
  have h1 : TEXTMEBOT_BASE_URL.toList.count '?' = 1 := by decide
  refine ⟨h1, by decide, by decide, by decide, ?_, ?_⟩
  · simp [String.toList]
  · rw [String.toList, String.data_append, List.count_append]
    have h0 : q.data.count '?' = 0 := List.count_eq_zero.mpr hq
    have h1' : TEXTMEBOT_BASE_URL.data.count '?' = 1 := h1
    omega

/-- The request for recipient, API key and text, joined by `&`. -/
theorem C9_base_url_ready_for_query_witness :
    '?' ∉ "recipient=%2B1234567890&apikey=K&text=Fall".toList ∧
    (TEXTMEBOT_BASE_URL.toList.count '?' = 1 ∧
     TEXTMEBOT_BASE_URL.toList.getLast? = some '?' ∧
     '&' ∉ TEXTMEBOT_BASE_URL.toList ∧ '#' ∉ TEXTMEBOT_BASE_URL.toList ∧
     (TEXTMEBOT_BASE_URL ++ "recipient=%2B1234567890&apikey=K&text=Fall").toList =
       TEXTMEBOT_BASE_URL.toList ++ "recipient=%2B1234567890&apikey=K&text=Fall".toList ∧
     (TEXTMEBOT_BASE_URL ++ "recipient=%2B1234567890&apikey=K&text=Fall").toList.count '?' = 1) :=
  ⟨by decide, C9_base_url_ready_for_query "recipient=%2B1234567890&apikey=K&text=Fall" (by decide)⟩
